import Mathlib

/-!
Verification of the amortization / abusiveness engine of the repository
`calc_juros_abusos` (files `calculadora_financeira.py`, `bacen_api.py`,
`config.py`, `main_app.py`).

The Python code works on floats; the embedding models the arithmetic over
`ℚ` (the algorithms are plain field arithmetic, and the float literal
`0.001` of the SAC clamp is modelled as the exact rational `1/1000`).
Machine floats themselves carry no further logic here.
-/

/-- One line of an amortization schedule, mirroring the dict built in
`calcular_tabela_price` / `calcular_tabela_sac`
(`calculadora_financeira.py`, lines 35-41 and 69-75). -/
structure TabelaLinha where
  mes : ℕ
  parcela : ℚ
  juros : ℚ
  amortizacao : ℚ
  saldo_devedor : ℚ
deriving DecidableEq

/-- The fixed PRICE installment `-npf.pmt(taxa, prazo, principal)`
(`calculadora_financeira.py`, line 16).  `numpy_financial.pmt` solves
`pv*(1+r)^n + pmt*((1+r)^n - 1)/r = 0` when `r ≠ 0` and `pv + pmt*n = 0`
when `r = 0`, so the negated payment is
`pv*r*(1+r)^n/((1+r)^n - 1)`, resp. `pv/n`. -/
def parcelaPrice (principal taxa_mensal : ℚ) (prazo_meses : ℕ) : ℚ :=
  if taxa_mensal = 0 then principal / (prazo_meses : ℚ)
  else principal * taxa_mensal * (1 + taxa_mensal) ^ prazo_meses /
    ((1 + taxa_mensal) ^ prazo_meses - 1)

/-- Loop of `calcular_tabela_price` (`calculadora_financeira.py`, lines 21-41):
`juros = saldo * taxa`, `amortizacao = parcela - juros`,
`saldo -= amortizacao`, and the balance is forced to `0` at the final month
(`if mes == prazo_meses`, lines 31-33).  The first argument of the match is
the number of remaining iterations of `range(1, prazo_meses + 1)`. -/
def priceAux (parcela taxa : ℚ) (prazo : ℕ) : ℕ → ℕ → ℚ → List TabelaLinha
  | 0, _, _ => []
  | k + 1, mes, saldo =>
    { mes := mes, parcela := parcela, juros := saldo * taxa,
      amortizacao := parcela - saldo * taxa,
      saldo_devedor := if mes = prazo then 0 else saldo - (parcela - saldo * taxa) } ::
    priceAux parcela taxa prazo k (mes + 1)
      (if mes = prazo then 0 else saldo - (parcela - saldo * taxa))

/-- `calcular_tabela_price` (`calculadora_financeira.py`, lines 11-43). -/
def calcular_tabela_price (principal taxa_mensal : ℚ) (prazo_meses : ℕ) : List TabelaLinha :=
  priceAux (parcelaPrice principal taxa_mensal prazo_meses) taxa_mensal prazo_meses
    prazo_meses 1 principal

/-- Loop of `calcular_tabela_sac` (`calculadora_financeira.py`, lines 55-75):
`juros = saldo * taxa`, `parcela = amortizacao_fixa + juros`,
`saldo -= amortizacao_fixa`, and the balance is clamped to `0` whenever it
falls below `0.001` (lines 65-67). -/
def sacAux (amortizacao_fixa taxa : ℚ) : ℕ → ℕ → ℚ → List TabelaLinha
  | 0, _, _ => []
  | k + 1, mes, saldo =>
    { mes := mes, parcela := amortizacao_fixa + saldo * taxa, juros := saldo * taxa,
      amortizacao := amortizacao_fixa,
      saldo_devedor := if saldo - amortizacao_fixa < 1 / 1000 then 0
        else saldo - amortizacao_fixa } ::
    sacAux amortizacao_fixa taxa k (mes + 1)
      (if saldo - amortizacao_fixa < 1 / 1000 then 0 else saldo - amortizacao_fixa)

/-- `calcular_tabela_sac` (`calculadora_financeira.py`, lines 46-77), with
`amortizacao_fixa = principal / prazo_meses` (line 50).  Faithful for
`prazo_meses ≥ 1`: at `prazo_meses = 0` the source raises an unhandled
`ZeroDivisionError` on line 50, whereas `ℚ` division totalizes `P / 0 = 0`,
so no theorem below is stated at `prazo_meses = 0` for this function's
error behaviour. -/
def calcular_tabela_sac (principal taxa_mensal : ℚ) (prazo_meses : ℕ) : List TabelaLinha :=
  sacAux (principal / (prazo_meses : ℚ)) taxa_mensal prazo_meses 1 principal

/-- `sum(linha['juros'] for linha in tabela)`
(`calculadora_financeira.py`, lines 108, 119, 135). -/
def somaJuros (tabela : List TabelaLinha) : ℚ :=
  (tabela.map TabelaLinha.juros).sum

/-- Sum of the `amortizacao` column of a schedule (used by the spec's
`sum(principal_paid) == principal` property). -/
def somaAmortizacao (tabela : List TabelaLinha) : ℚ :=
  (tabela.map TabelaLinha.amortizacao).sum

/-- Outcome of the reference-rate lookup `buscar_taxa_media_bacen`
(`bacen_api.py`, lines 8-69).  Each constructor is one of the code paths of
that function: success with a parsed rate, unknown modality (line 22),
malformed date (line 33), network failure (line 64), empty data for the
month (line 60), and unparsable response (line 67). -/
inductive BacenResultado where
  | sucesso (taxa : ℚ)
  | modalidadeDesconhecida
  | dataInvalida
  | falhaRede
  | semDados
  | erroProcessamento
deriving DecidableEq

/-- Value returned by `buscar_taxa_media_bacen` on each code path
(`bacen_api.py`): the parsed rate on success and `0.0` on every failure
path (lines 24, 35, 62, 66, 69). -/
def buscar_taxa_media_bacen : BacenResultado → ℚ
  | BacenResultado.sucesso taxa => taxa
  | _ => 0

/-- One thesis block of the dict returned by `calcular_abusividade`
(`calculadora_financeira.py`, lines 149-161). -/
structure Tese where
  taxa_recalculada : ℚ
  juros_total_recalculado : ℚ
  valor_abusivo_total : ℚ
  tabela_recalculada : List TabelaLinha
deriving DecidableEq

/-- The full dict returned by `calcular_abusividade`
(`calculadora_financeira.py`, lines 144-162). -/
structure ResultadoAbusividade where
  taxa_bacen : ℚ
  juros_total_original : ℚ
  tabela_original : List TabelaLinha
  tese_tolerancia_zero : Tese
  tese_tolerancia_50pc : Tese
deriving DecidableEq

/-- `TOLERANCIA_JUDICIAL = 0.5` (`calculadora_financeira.py`, line 128). -/
def TOLERANCIA_JUDICIAL : ℚ := 1 / 2

/-- One thesis computation of `calcular_abusividade`
(`calculadora_financeira.py`, lines 116-122 and 132-138): recalculate the
schedule at the fair rate, sum its interest, and take
`max(0, juros_total_original - juros_total_recalculado)`. -/
def montarTese (func_calculo : ℚ → ℚ → ℕ → List TabelaLinha) (principal : ℚ)
    (prazo_meses : ℕ) (juros_total_original taxa_justa : ℚ) : Tese :=
  { taxa_recalculada := taxa_justa
    juros_total_recalculado := somaJuros (func_calculo principal taxa_justa prazo_meses)
    valor_abusivo_total :=
      max 0 (juros_total_original - somaJuros (func_calculo principal taxa_justa prazo_meses))
    tabela_recalculada := func_calculo principal taxa_justa prazo_meses }

/-- Body of `calcular_abusividade` after the amortization system is chosen
(`calculadora_financeira.py`, lines 106-162): original schedule, thesis 1
at `min(taxa_contratada, taxa_bacen)` (line 116), thesis 2 at
`min(taxa_contratada, taxa_bacen * (1 + TOLERANCIA_JUDICIAL))`
(lines 129-132). -/
def montarResultado (func_calculo : ℚ → ℚ → ℕ → List TabelaLinha)
    (taxa_bacen principal taxa_contratada : ℚ) (prazo_meses : ℕ) : ResultadoAbusividade :=
  { taxa_bacen := taxa_bacen
    juros_total_original := somaJuros (func_calculo principal taxa_contratada prazo_meses)
    tabela_original := func_calculo principal taxa_contratada prazo_meses
    tese_tolerancia_zero := montarTese func_calculo principal prazo_meses
      (somaJuros (func_calculo principal taxa_contratada prazo_meses))
      (min taxa_contratada taxa_bacen)
    tese_tolerancia_50pc := montarTese func_calculo principal prazo_meses
      (somaJuros (func_calculo principal taxa_contratada prazo_meses))
      (min taxa_contratada (taxa_bacen * (1 + TOLERANCIA_JUDICIAL))) }

/-- Python `str.upper()` as used on the amortization-system string
(`calculadora_financeira.py`, lines 99-101); the strings compared against
are ASCII, for which per-character uppercasing is exactly this map. -/
def upper (s : String) : String := String.mk (s.data.map Char.toUpper)

/-- `calcular_abusividade` (`calculadora_financeira.py`, lines 80-162).
The rate lookup (line 96) is modelled by `buscar_taxa_media_bacen` applied
to the lookup outcome; the system dispatch (lines 99-104) raises
`ValueError` for anything other than PRICE / SAC (case-insensitively),
modelled as `Except.error`. -/
def calcular_abusividade (resultado_bacen : BacenResultado)
    (principal taxa_contratada : ℚ) (prazo_meses : ℕ) (sistema_amortizacao : String) :
    Except String ResultadoAbusividade :=
  if upper sistema_amortizacao = "PRICE" then
    Except.ok (montarResultado calcular_tabela_price
      (buscar_taxa_media_bacen resultado_bacen) principal taxa_contratada prazo_meses)
  else if upper sistema_amortizacao = "SAC" then
    Except.ok (montarResultado calcular_tabela_sac
      (buscar_taxa_media_bacen resultado_bacen) principal taxa_contratada prazo_meses)
  else
    Except.error "Sistema de Amortizacao invalido. Escolha PRICE ou SAC."

/-- The custom-tolerance thesis computed in `main_app.py`, lines 170-181:
`limite = taxa_bacen * (1 + tolerancia)`,
`taxa_recalculo = min(taxa_contratada, limite)`, and the abusive amount
`max(0, juros_total_original - juros_total_recalculado)`. -/
def avaliarTese (func_calculo : ℚ → ℚ → ℕ → List TabelaLinha)
    (taxa_bacen principal taxa_contratada : ℚ) (prazo_meses : ℕ) (tolerancia : ℚ) : ℚ :=
  max 0 (somaJuros (func_calculo principal taxa_contratada prazo_meses) -
    somaJuros (func_calculo principal
      (min taxa_contratada (taxa_bacen * (1 + tolerancia))) prazo_meses))

/-- Exact balance recurrence of the spec's Schedule-Line invariant:
starting from balance `s`, every line stores
`saldo_devedor = previous - amortizacao`. -/
def chainFrom : ℚ → List TabelaLinha → Prop
  | _, [] => True
  | s, linha :: resto =>
    linha.saldo_devedor = s - linha.amortizacao ∧ chainFrom linha.saldo_devedor resto

/-- Balance recurrence with the SAC clamp: every line stores
`saldo_devedor = previous - amortizacao`, except that the stored value is
`0` whenever that difference falls below `1/1000`. -/
def chainClampFrom : ℚ → List TabelaLinha → Prop
  | _, [] => True
  | s, linha :: resto =>
    (linha.saldo_devedor =
      if s - linha.amortizacao < 1 / 1000 then 0 else s - linha.amortizacao) ∧
    chainClampFrom linha.saldo_devedor resto

/-- The stored balances are non-increasing, starting from `s`. -/
def nonIncFrom : ℚ → List TabelaLinha → Prop
  | _, [] => True
  | s, linha :: resto => linha.saldo_devedor ≤ s ∧ nonIncFrom linha.saldo_devedor resto


/-- Annuity factor `∑ j in range k, (1+r)^-(j+1)`: the present value of `k`
unit payments at rate `r`.  The PRICE installment is `principal / af r n`. -/
def af (r : ℚ) (k : ℕ) : ℚ :=
  ∑ j ∈ Finset.range k, ((1 + r) ^ (j + 1))⁻¹

theorem af_zero (r : ℚ) : af r 0 = 0 := by
  simp [af]

theorem af_succ (r : ℚ) (k : ℕ) : af r (k + 1) = (1 + r)⁻¹ * (1 + af r k) := by
  unfold af
  rw [Finset.sum_range_succ']
  have h : ∀ j : ℕ, ((1 + r) ^ (j + 1 + 1))⁻¹ = (1 + r)⁻¹ * ((1 + r) ^ (j + 1))⁻¹ := by
    intro j
    rw [pow_succ, mul_inv, mul_comm]
  simp only [h]
  rw [← Finset.mul_sum]
  ring

theorem one_add_pos {r : ℚ} (hr : 0 ≤ r) : (0 : ℚ) < 1 + r := by linarith

theorem af_succ_mul {r : ℚ} (hr : 0 ≤ r) (k : ℕ) :
    af r (k + 1) * (1 + r) = 1 + af r k := by
  rw [af_succ, mul_comm ((1 + r)⁻¹) (1 + af r k), mul_assoc,
    inv_mul_cancel₀ (one_add_pos hr).ne', mul_one]

theorem r_mul_af {r : ℚ} (hr : 0 ≤ r) (k : ℕ) :
    r * af r k = 1 - ((1 + r)⁻¹) ^ k := by
  induction k with
  | zero => simp [af_zero]
  | succ k ih =>
    have h0 : (1 + r) ≠ 0 := (one_add_pos hr).ne'
    have h1 : af r (k + 1) * (1 + r) = 1 + af r k := af_succ_mul hr k
    have h2 : ((1 + r)⁻¹) ^ (k + 1) * (1 + r) = ((1 + r)⁻¹) ^ k := by
      rw [pow_succ, mul_assoc, inv_mul_cancel₀ h0, mul_one]
    have h3 : (r * af r (k + 1)) * (1 + r) = (1 - ((1 + r)⁻¹) ^ (k + 1)) * (1 + r) := by
      calc (r * af r (k + 1)) * (1 + r) = r * (af r (k + 1) * (1 + r)) := by ring
        _ = r * (1 + af r k) := by rw [h1]
        _ = r + r * af r k := by ring
        _ = r + 1 - ((1 + r)⁻¹) ^ k := by rw [ih]; ring
        _ = (1 + r) - ((1 + r)⁻¹) ^ (k + 1) * (1 + r) := by rw [h2]; ring
        _ = (1 - ((1 + r)⁻¹) ^ (k + 1)) * (1 + r) := by ring
    exact mul_right_cancel₀ h0 h3

theorem af_nonneg {r : ℚ} (hr : 0 ≤ r) (k : ℕ) : 0 ≤ af r k := by
  refine Finset.sum_nonneg fun j _ => ?_
  positivity

theorem af_pos {r : ℚ} (hr : 0 ≤ r) {k : ℕ} (hk : 1 ≤ k) : 0 < af r k := by
  refine Finset.sum_pos (fun j _ => ?_) ?_
  · positivity
  · exact Finset.nonempty_range_iff.mpr (by omega)

theorem af_le_card {r : ℚ} (hr : 0 ≤ r) (k : ℕ) : af r k ≤ (k : ℚ) := by
  have h : ∀ j ∈ Finset.range k, ((1 + r) ^ (j + 1))⁻¹ ≤ (1 : ℚ) := by
    intro j _
    have h0 : (1 : ℚ) ≤ 1 + r := by linarith
    have h1 : (1 : ℚ) ≤ (1 + r) ^ (j + 1) := one_le_pow₀ h0
    exact inv_le_one_of_one_le₀ h1
  calc af r k ≤ ∑ _j ∈ Finset.range k, (1 : ℚ) := Finset.sum_le_sum h
    _ = (k : ℚ) := by simp

theorem af_mono_k {r : ℚ} (hr : 0 ≤ r) {k1 k2 : ℕ} (h : k1 ≤ k2) : af r k1 ≤ af r k2 := by
  refine Finset.sum_le_sum_of_subset_of_nonneg (Finset.range_subset.mpr h) ?_
  intro j _ _
  positivity

theorem af_anti_r {r1 r2 : ℚ} (hr1 : 0 ≤ r1) (h : r1 ≤ r2) (k : ℕ) :
    af r2 k ≤ af r1 k := by
  refine Finset.sum_le_sum fun j _ => ?_
  have h1 : (0 : ℚ) < (1 + r1) ^ (j + 1) := by positivity
  have h2 : (1 + r1) ^ (j + 1) ≤ (1 + r2) ^ (j + 1) :=
    pow_le_pow_left₀ (by linarith) (by linarith) _
  exact inv_anti₀ h1 h2

theorem af_zero_rate (k : ℕ) : af 0 k = (k : ℚ) := by
  unfold af
  simp

theorem parcelaPrice_eq {r : ℚ} (hr : 0 ≤ r) {n : ℕ} (hn : 1 ≤ n) (P : ℚ) :
    parcelaPrice P r n = P / af r n := by
  unfold parcelaPrice
  by_cases hr0 : r = 0
  · subst hr0
    rw [if_pos rfl, af_zero_rate]
  · rw [if_neg hr0]
    have hrpos : 0 < r := lt_of_le_of_ne hr (Ne.symm hr0)
    have h0 : (1 + r) ≠ 0 := (one_add_pos hr).ne'
    have hA : (1 : ℚ) < (1 + r) ^ n := one_lt_pow₀ (by linarith) (by omega)
    have hA0 : ((1 + r) ^ n - 1) ≠ 0 := by linarith
    have hq : ((1 + r)⁻¹) ^ n * (1 + r) ^ n = 1 := by
      rw [← mul_pow, inv_mul_cancel₀ h0, one_pow]
    have haf : af r n * r = 1 - ((1 + r)⁻¹) ^ n := by
      rw [mul_comm]; exact r_mul_af hr n
    have hafne : af r n ≠ 0 := (af_pos hr hn).ne'
    rw [div_eq_div_iff hA0 hafne]
    calc P * r * (1 + r) ^ n * af r n = P * (af r n * r) * (1 + r) ^ n := by ring
      _ = P * (1 - ((1 + r)⁻¹) ^ n) * (1 + r) ^ n := by rw [haf]
      _ = P * ((1 + r) ^ n - ((1 + r)⁻¹) ^ n * (1 + r) ^ n) := by ring
      _ = P * ((1 + r) ^ n - 1) := by rw [hq]

theorem saldo_step {r : ℚ} (hr : 0 ≤ r) (parcela : ℚ) (k : ℕ) :
    parcela * af r (k + 1) - (parcela - parcela * af r (k + 1) * r) = parcela * af r k := by
  have h1 : af r (k + 1) * (1 + r) = 1 + af r k := af_succ_mul hr k
  calc parcela * af r (k + 1) - (parcela - parcela * af r (k + 1) * r)
      = parcela * (af r (k + 1) * (1 + r)) - parcela := by ring
    _ = parcela * (1 + af r k) - parcela := by rw [h1]
    _ = parcela * af r k := by ring

theorem priceAux_length (parcela r : ℚ) (n : ℕ) :
    ∀ (k mes : ℕ) (s : ℚ), (priceAux parcela r n k mes s).length = k := by
  intro k
  induction k with
  | zero => intro mes s; rfl
  | succ k ih => intro mes s; simp only [priceAux, List.length_cons, ih]

theorem sacAux_length (aF r : ℚ) :
    ∀ (k mes : ℕ) (s : ℚ), (sacAux aF r k mes s).length = k := by
  intro k
  induction k with
  | zero => intro mes s; rfl
  | succ k ih => intro mes s; simp only [sacAux, List.length_cons, ih]

theorem priceAux_mem (parcela r : ℚ) (n : ℕ) :
    ∀ (k mes : ℕ) (s : ℚ), ∀ linha ∈ priceAux parcela r n k mes s,
      linha.parcela = parcela ∧ linha.parcela = linha.juros + linha.amortizacao := by
  intro k
  induction k with
  | zero => intro mes s linha h; cases h
  | succ k ih =>
    intro mes s linha h
    rcases List.mem_cons.mp h with h1 | h1
    · subst h1
      exact ⟨rfl, by ring⟩
    · exact ih (mes + 1) _ linha h1

theorem sacAux_mem (aF r : ℚ) :
    ∀ (k mes : ℕ) (s : ℚ), ∀ linha ∈ sacAux aF r k mes s,
      linha.amortizacao = aF ∧ linha.parcela = linha.juros + linha.amortizacao := by
  intro k
  induction k with
  | zero => intro mes s linha h; cases h
  | succ k ih =>
    intro mes s linha h
    rcases List.mem_cons.mp h with h1 | h1
    · subst h1
      exact ⟨rfl, by ring⟩
    · exact ih (mes + 1) _ linha h1

theorem priceAux_juros_zero (parcela : ℚ) (n : ℕ) :
    ∀ (k mes : ℕ) (s : ℚ), ∀ linha ∈ priceAux parcela 0 n k mes s, linha.juros = 0 := by
  intro k
  induction k with
  | zero => intro mes s linha h; cases h
  | succ k ih =>
    intro mes s linha h
    rcases List.mem_cons.mp h with h1 | h1
    · subst h1; exact mul_zero s
    · exact ih (mes + 1) _ linha h1

theorem sacAux_juros_zero (aF : ℚ) :
    ∀ (k mes : ℕ) (s : ℚ), ∀ linha ∈ sacAux aF 0 k mes s, linha.juros = 0 := by
  intro k
  induction k with
  | zero => intro mes s linha h; cases h
  | succ k ih =>
    intro mes s linha h
    rcases List.mem_cons.mp h with h1 | h1
    · subst h1; exact mul_zero s
    · exact ih (mes + 1) _ linha h1

theorem priceAux_chainFrom (parcela : ℚ) {r : ℚ} (hr : 0 ≤ r) (n : ℕ) :
    ∀ (k mes : ℕ) (s : ℚ), mes + k = n + 1 → s = parcela * af r k →
      chainFrom s (priceAux parcela r n k mes s) := by
  intro k
  induction k with
  | zero => intro mes s _ _; exact trivial
  | succ k ih =>
    intro mes s hmk hs
    simp only [priceAux, chainFrom]
    by_cases hmn : mes = n
    · have hk0 : k = 0 := by omega
      subst hk0
      subst hs
      refine ⟨?_, ?_⟩
      · rw [if_pos hmn]
        have h := saldo_step hr parcela 0
        rw [af_zero, mul_zero] at h
        linarith
      · rw [if_pos hmn]
        exact trivial
    · have hk1 : 1 ≤ k := by omega
      subst hs
      have hstep : parcela * af r (k + 1) -
          (parcela - parcela * af r (k + 1) * r) = parcela * af r k := saldo_step hr parcela k
      refine ⟨?_, ?_⟩
      · rw [if_neg hmn]
      · rw [if_neg hmn, hstep]
        exact ih (mes + 1) (parcela * af r k) (by omega) rfl

theorem priceAux_nonInc (parcela : ℚ) {r : ℚ} (hr : 0 ≤ r) (hpar : 0 ≤ parcela) (n : ℕ) :
    ∀ (k mes : ℕ) (s : ℚ), mes + k = n + 1 → s = parcela * af r k →
      nonIncFrom s (priceAux parcela r n k mes s) := by
  intro k
  induction k with
  | zero => intro mes s _ _; exact trivial
  | succ k ih =>
    intro mes s hmk hs
    simp only [priceAux, nonIncFrom]
    have hq : (0 : ℚ) ≤ ((1 + r)⁻¹) ^ (k + 1) := by positivity
    have hamort : 0 ≤ parcela - s * r := by
      have h1 : parcela - s * r = parcela * ((1 + r)⁻¹) ^ (k + 1) := by
        rw [hs]
        have h2 := r_mul_af hr (k + 1)
        linear_combination (-parcela) * h2
      rw [h1]
      exact mul_nonneg hpar hq
    by_cases hmn : mes = n
    · have hk0 : k = 0 := by omega
      subst hk0
      refine ⟨?_, ?_⟩
      · rw [if_pos hmn]
        rw [hs]
        have := af_nonneg hr 1
        nlinarith
      · rw [if_pos hmn]
        exact trivial
    · subst hs
      have hstep := saldo_step hr parcela k
      refine ⟨?_, ?_⟩
      · rw [if_neg hmn]
        linarith
      · rw [if_neg hmn, hstep]
        exact ih (mes + 1) (parcela * af r k) (by omega) rfl

theorem priceAux_somaAmort (parcela : ℚ) {r : ℚ} (hr : 0 ≤ r) (n : ℕ) :
    ∀ (k mes : ℕ) (s : ℚ), mes + k = n + 1 → s = parcela * af r k →
      somaAmortizacao (priceAux parcela r n k mes s) = s := by
  intro k
  induction k with
  | zero =>
    intro mes s _ hs
    rw [hs, af_zero, mul_zero]
    rfl
  | succ k ih =>
    intro mes s hmk hs
    simp only [priceAux, somaAmortizacao, List.map_cons, List.sum_cons]
    by_cases hmn : mes = n
    · have hk0 : k = 0 := by omega
      subst hk0
      subst hs
      rw [if_pos hmn]
      have h := saldo_step hr parcela 0
      rw [af_zero, mul_zero] at h
      simp only [priceAux, List.map_nil, List.sum_nil]
      linarith
    · subst hs
      have hstep := saldo_step hr parcela k
      rw [if_neg hmn, hstep]
      have := ih (mes + 1) (parcela * af r k) (by omega) rfl
      unfold somaAmortizacao at this
      rw [this]
      linarith

theorem priceAux_somaJuros_eq (parcela r : ℚ) (n : ℕ) :
    ∀ (k mes : ℕ) (s : ℚ), somaJuros (priceAux parcela r n k mes s) =
      (k : ℚ) * parcela - somaAmortizacao (priceAux parcela r n k mes s) := by
  intro k
  induction k with
  | zero => intro mes s; simp [priceAux, somaJuros, somaAmortizacao]
  | succ k ih =>
    intro mes s
    simp only [priceAux, somaJuros, somaAmortizacao, List.map_cons, List.sum_cons]
    have := ih (mes + 1) (if mes = n then 0 else s - (parcela - s * r))
    unfold somaJuros somaAmortizacao at this
    rw [this]
    push_cast
    ring

theorem priceAux_last (parcela r : ℚ) (n : ℕ) :
    ∀ (k : ℕ), 1 ≤ k → ∀ (mes : ℕ) (s : ℚ), mes + k = n + 1 →
      ∃ linha, (priceAux parcela r n k mes s).getLast? = some linha ∧
        linha.saldo_devedor = 0 := by
  intro k
  induction k with
  | zero => intro h; omega
  | succ k ih =>
    intro _ mes s hmk
    match k, ih with
    | 0, _ =>
      have hmn : mes = n := by omega
      simp only [priceAux]
      exact ⟨_, List.getLast?_singleton _, by simp only [if_pos hmn]⟩
    | k' + 1, ih =>
      obtain ⟨linha, hl, hs0⟩ := ih (by omega) (mes + 1)
        (if mes = n then 0 else s - (parcela - s * r)) (by omega)
      refine ⟨linha, ?_, hs0⟩
      simp only [priceAux] at hl ⊢
      rw [List.getLast?_cons_cons]
      exact hl

theorem sacAux_chainClamp (aF r : ℚ) :
    ∀ (k mes : ℕ) (s : ℚ), chainClampFrom s (sacAux aF r k mes s) := by
  intro k
  induction k with
  | zero => intro mes s; exact trivial
  | succ k ih =>
    intro mes s
    exact ⟨rfl, ih (mes + 1) _⟩

theorem sacAux_nonInc {aF : ℚ} (haF : 0 ≤ aF) (r : ℚ) :
    ∀ (k mes : ℕ) (s : ℚ), 0 ≤ s → nonIncFrom s (sacAux aF r k mes s) := by
  intro k
  induction k with
  | zero => intro mes s _; exact trivial
  | succ k ih =>
    intro mes s hs
    refine ⟨?_, ?_⟩
    · show (if s - aF < 1 / 1000 then (0 : ℚ) else s - aF) ≤ s
      by_cases h : s - aF < 1 / 1000
      · rw [if_pos h]; exact hs
      · rw [if_neg h]; linarith
    · refine ih (mes + 1) _ ?_
      show (0 : ℚ) ≤ if s - aF < 1 / 1000 then (0 : ℚ) else s - aF
      by_cases h : s - aF < 1 / 1000
      · rw [if_pos h]
      · rw [if_neg h]; push_neg at h; linarith

theorem sacAux_somaAmort (aF r : ℚ) :
    ∀ (k mes : ℕ) (s : ℚ), somaAmortizacao (sacAux aF r k mes s) = (k : ℚ) * aF := by
  intro k
  induction k with
  | zero => intro mes s; simp [sacAux, somaAmortizacao]
  | succ k ih =>
    intro mes s
    simp only [sacAux, somaAmortizacao, List.map_cons, List.sum_cons]
    have := ih (mes + 1) (if s - aF < 1 / 1000 then 0 else s - aF)
    unfold somaAmortizacao at this
    rw [this]
    push_cast
    ring

/-- The sum of the balances on which SAC interest is charged.  It does not
depend on the rate, because the clamp (`calculadora_financeira.py`, lines
65-67) only looks at the balance. -/
def sacSaldoBase (aF : ℚ) : ℕ → ℚ → ℚ
  | 0, _ => 0
  | k + 1, s => s + sacSaldoBase aF k (if s - aF < 1 / 1000 then 0 else s - aF)

theorem sacAux_somaJuros (aF r : ℚ) :
    ∀ (k mes : ℕ) (s : ℚ), somaJuros (sacAux aF r k mes s) = r * sacSaldoBase aF k s := by
  intro k
  induction k with
  | zero => intro mes s; simp [sacAux, somaJuros, sacSaldoBase]
  | succ k ih =>
    intro mes s
    simp only [sacAux, somaJuros, List.map_cons, List.sum_cons, sacSaldoBase]
    have := ih (mes + 1) (if s - aF < 1 / 1000 then 0 else s - aF)
    unfold somaJuros at this
    rw [this]
    ring

theorem sacSaldoBase_nonneg (aF : ℚ) :
    ∀ (k : ℕ) (s : ℚ), 0 ≤ s → 0 ≤ sacSaldoBase aF k s := by
  intro k
  induction k with
  | zero => intro s _; exact le_refl 0
  | succ k ih =>
    intro s hs
    simp only [sacSaldoBase]
    have h1 : 0 ≤ sacSaldoBase aF k (if s - aF < 1 / 1000 then 0 else s - aF) := by
      refine ih _ ?_
      by_cases h : s - aF < 1 / 1000
      · rw [if_pos h]
      · rw [if_neg h]; push_neg at h; linarith
    linarith

theorem sacAux_last {aF : ℚ} (haF : 0 < aF) (r : ℚ) :
    ∀ (k : ℕ), 1 ≤ k → ∀ (mes : ℕ) (s : ℚ), (s = aF * k ∨ s = 0) →
      ∃ linha, (sacAux aF r k mes s).getLast? = some linha ∧
        linha.saldo_devedor = 0 := by
  intro k
  induction k with
  | zero => intro h; omega
  | succ k ih =>
    intro _ mes s hs
    match k, ih with
    | 0, _ =>
      simp only [sacAux]
      refine ⟨_, List.getLast?_singleton _, ?_⟩
      have hclamp : s - aF < 1 / 1000 := by
        rcases hs with h | h
        · rw [h]; push_cast; linarith
        · rw [h]; linarith
      simp only [if_pos hclamp]
    | k' + 1, ih =>
      have hnext : (if s - aF < 1 / 1000 then (0 : ℚ) else s - aF) = aF * (k' + 1 : ℕ) ∨
          (if s - aF < 1 / 1000 then (0 : ℚ) else s - aF) = 0 := by
        by_cases h : s - aF < 1 / 1000
        · right; rw [if_pos h]
        · rcases hs with h1 | h1
          · left
            rw [if_neg h, h1]
            push_cast
            ring
          · rw [h1] at h
            exact absurd (by linarith : (0 : ℚ) - aF < 1 / 1000) h
      obtain ⟨linha, hl, hs0⟩ := ih (by omega) (mes + 1) _ hnext
      refine ⟨linha, ?_, hs0⟩
      simp only [sacAux] at hl ⊢
      rw [List.getLast?_cons_cons]
      exact hl

theorem price_saldo_inicial {r : ℚ} (hr : 0 ≤ r) {n : ℕ} (hn : 1 ≤ n) (P : ℚ) :
    P = parcelaPrice P r n * af r n := by
  rw [parcelaPrice_eq hr hn, div_mul_cancel₀]
  exact (af_pos hr hn).ne'

theorem price_chainFrom {r : ℚ} (hr : 0 ≤ r) {n : ℕ} (hn : 1 ≤ n) (P : ℚ) :
    chainFrom P (calcular_tabela_price P r n) :=
  priceAux_chainFrom (parcelaPrice P r n) hr n n 1 P (by omega)
    (price_saldo_inicial hr hn P)

theorem price_somaAmort {r : ℚ} (hr : 0 ≤ r) {n : ℕ} (hn : 1 ≤ n) (P : ℚ) :
    somaAmortizacao (calcular_tabela_price P r n) = P :=
  priceAux_somaAmort (parcelaPrice P r n) hr n n 1 P (by omega)
    (price_saldo_inicial hr hn P)

theorem price_somaJuros {r : ℚ} (hr : 0 ≤ r) {n : ℕ} (hn : 1 ≤ n) (P : ℚ) :
    somaJuros (calcular_tabela_price P r n) = (n : ℚ) * (P / af r n) - P := by
  unfold calcular_tabela_price
  rw [priceAux_somaJuros_eq]
  have h1 := price_somaAmort hr hn P
  unfold calcular_tabela_price at h1
  rw [h1, parcelaPrice_eq hr hn]

theorem price_parcela_nonneg {r P : ℚ} (hr : 0 ≤ r) (hP : 0 ≤ P) {n : ℕ} (hn : 1 ≤ n) :
    0 ≤ parcelaPrice P r n := by
  rw [parcelaPrice_eq hr hn]
  exact div_nonneg hP (af_pos hr hn).le

theorem price_nonInc {r P : ℚ} (hr : 0 ≤ r) (hP : 0 ≤ P) {n : ℕ} (hn : 1 ≤ n) :
    nonIncFrom P (calcular_tabela_price P r n) :=
  priceAux_nonInc (parcelaPrice P r n) hr (price_parcela_nonneg hr hP hn) n n 1 P
    (by omega) (price_saldo_inicial hr hn P)

theorem price_somaJuros_nonneg {r P : ℚ} (hr : 0 ≤ r) (hP : 0 ≤ P) {n : ℕ} (hn : 1 ≤ n) :
    0 ≤ somaJuros (calcular_tabela_price P r n) := by
  rw [price_somaJuros hr hn]
  have hnq : (0 : ℚ) < (n : ℚ) := by
    have : (1 : ℚ) ≤ (n : ℚ) := by exact_mod_cast hn
    linarith
  have hafpos := af_pos hr hn
  have hafle := af_le_card hr n
  have h1 : P / (n : ℚ) ≤ P / af r n := by
    rw [div_le_div_iff₀ hnq hafpos]
    exact mul_le_mul_of_nonneg_left hafle hP
  have h2 : (n : ℚ) * (P / (n : ℚ)) = P := by field_simp
  have h3 : (n : ℚ) * (P / (n : ℚ)) ≤ (n : ℚ) * (P / af r n) :=
    mul_le_mul_of_nonneg_left h1 hnq.le
  linarith

theorem price_somaJuros_mono {r1 r2 P : ℚ} (hr1 : 0 ≤ r1) (hr12 : r1 ≤ r2) (hP : 0 ≤ P)
    {n : ℕ} (hn : 1 ≤ n) :
    somaJuros (calcular_tabela_price P r1 n) ≤ somaJuros (calcular_tabela_price P r2 n) := by
  rw [price_somaJuros hr1 hn, price_somaJuros (le_trans hr1 hr12) hn]
  have h1 := af_pos (le_trans hr1 hr12) hn (r := r2)
  have h2 := af_anti_r hr1 hr12 n
  have h3 : P / af r1 n ≤ P / af r2 n := by
    rw [div_le_div_iff₀ (lt_of_lt_of_le h1 h2) h1]
    exact mul_le_mul_of_nonneg_left h2 hP
  have hnq : (0 : ℚ) ≤ (n : ℚ) := Nat.cast_nonneg n
  have h4 : (n : ℚ) * (P / af r1 n) ≤ (n : ℚ) * (P / af r2 n) :=
    mul_le_mul_of_nonneg_left h3 hnq
  linarith

theorem sac_somaJuros {r : ℚ} (P : ℚ) (n : ℕ) :
    somaJuros (calcular_tabela_sac P r n) =
      r * sacSaldoBase (P / (n : ℚ)) n P :=
  sacAux_somaJuros (P / (n : ℚ)) r n 1 P

theorem sac_somaJuros_nonneg {r P : ℚ} (hr : 0 ≤ r) (hP : 0 ≤ P) (n : ℕ) :
    0 ≤ somaJuros (calcular_tabela_sac P r n) := by
  rw [sac_somaJuros]
  exact mul_nonneg hr (sacSaldoBase_nonneg _ n P hP)

theorem sac_somaJuros_mono {r1 r2 P : ℚ} (hr1 : 0 ≤ r1) (hr12 : r1 ≤ r2) (hP : 0 ≤ P)
    (n : ℕ) :
    somaJuros (calcular_tabela_sac P r1 n) ≤ somaJuros (calcular_tabela_sac P r2 n) := by
  rw [sac_somaJuros, sac_somaJuros]
  exact mul_le_mul_of_nonneg_right hr12 (sacSaldoBase_nonneg _ n P hP)

theorem price_juros_zero (P : ℚ) (n : ℕ) :
    ∀ linha ∈ calcular_tabela_price P 0 n, linha.juros = 0 :=
  priceAux_juros_zero (parcelaPrice P 0 n) n n 1 P

theorem sac_juros_zero (P : ℚ) (n : ℕ) :
    ∀ linha ∈ calcular_tabela_sac P 0 n, linha.juros = 0 :=
  sacAux_juros_zero (P / (n : ℚ)) n 1 P

theorem somaJuros_eq_zero {tabela : List TabelaLinha}
    (h : ∀ linha ∈ tabela, linha.juros = 0) : somaJuros tabela = 0 := by
  unfold somaJuros
  induction tabela with
  | nil => rfl
  | cons linha resto ih =>
    rw [List.map_cons, List.sum_cons, h linha (List.mem_cons_self linha resto),
      ih fun l hl => h l (List.mem_cons_of_mem _ hl), add_zero]

theorem price_last {n : ℕ} (hn : 1 ≤ n) (P r : ℚ) :
    ∃ linha, (calcular_tabela_price P r n).getLast? = some linha ∧
      linha.saldo_devedor = 0 :=
  priceAux_last (parcelaPrice P r n) r n n hn 1 P (by omega)

theorem sac_last {P : ℚ} (hP : 0 < P) {n : ℕ} (hn : 1 ≤ n) (r : ℚ) :
    ∃ linha, (calcular_tabela_sac P r n).getLast? = some linha ∧
      linha.saldo_devedor = 0 := by
  have hnq : (0 : ℚ) < (n : ℚ) := by exact_mod_cast Nat.lt_of_lt_of_le Nat.zero_lt_one hn
  refine sacAux_last (div_pos hP hnq) r n hn 1 P (Or.inl ?_)
  rw [div_mul_cancel₀ P hnq.ne']

/-- Claim C9: both amortization-engine functions are total over their whole
input type and always return a schedule with exactly `prazo_meses` lines
(in the embedding they are structurally recursive, so they terminate for
every rational principal and rate). -/
theorem C9_totalidade (P r : ℚ) (n : ℕ) :
    (calcular_tabela_price P r n).length = n ∧
    (calcular_tabela_sac P r n).length = n :=
  ⟨priceAux_length _ r n n 1 P, sacAux_length _ r n 1 P⟩

/-- Claim C4: for valid inputs, both conventions return a schedule of length
exactly the term, whose last line has remaining balance exactly 0 (PRICE
forces it at the final month, SAC reaches it through the `1e-3` clamp). -/
theorem C4_comprimento_e_saldo_final (P r : ℚ) (n : ℕ)
    (hP : 0 < P) (hr : 0 ≤ r) (hn : 1 ≤ n) :
    (calcular_tabela_price P r n).length = n ∧
    (calcular_tabela_sac P r n).length = n ∧
    (∃ linha, (calcular_tabela_price P r n).getLast? = some linha ∧
      linha.saldo_devedor = 0) ∧
    (∃ linha, (calcular_tabela_sac P r n).getLast? = some linha ∧
      linha.saldo_devedor = 0) :=
  ⟨priceAux_length _ r n n 1 P, sacAux_length _ r n 1 P,
    price_last hn P r, sac_last hP hn r⟩

theorem C4_comprimento_e_saldo_final_witness :
    (calcular_tabela_price 100 (1/100) 2).length = 2 ∧
    (calcular_tabela_sac 100 (1/100) 2).length = 2 ∧
    (∃ linha, (calcular_tabela_price 100 (1/100) 2).getLast? = some linha ∧
      linha.saldo_devedor = 0) ∧
    (∃ linha, (calcular_tabela_sac 100 (1/100) 2).getLast? = some linha ∧
      linha.saldo_devedor = 0) :=
  C4_comprimento_e_saldo_final 100 (1/100) 2 (by norm_num) (by norm_num) (by norm_num)

/-- Claim C5: with a zero monthly rate, both conventions run without
division by zero (the PRICE installment takes the explicit `principal/n`
branch of `npf.pmt`), the PRICE payment equals `principal / n` in every
period, and every interest entry of both schedules is 0. -/
theorem C5_taxa_zero (P : ℚ) (n : ℕ) (hP : 0 < P) (hn : 1 ≤ n) :
    (∀ linha ∈ calcular_tabela_price P 0 n,
      linha.parcela = P / (n : ℚ) ∧ linha.juros = 0) ∧
    (∀ linha ∈ calcular_tabela_sac P 0 n, linha.juros = 0) := by
  refine ⟨fun linha h => ⟨?_, price_juros_zero P n linha h⟩, sac_juros_zero P n⟩
  have h1 := (priceAux_mem (parcelaPrice P 0 n) 0 n n 1 P linha h).1
  rw [h1]
  unfold parcelaPrice
  rw [if_pos rfl]

theorem C5_taxa_zero_witness :
    (∀ linha ∈ calcular_tabela_price 7 0 3,
      linha.parcela = 7 / ((3 : ℕ) : ℚ) ∧ linha.juros = 0) ∧
    (∀ linha ∈ calcular_tabela_sac 7 0 3, linha.juros = 0) :=
  C5_taxa_zero 7 3 (by norm_num) (by norm_num)

/-- Claim C6: for valid inputs, the `amortizacao` column of both conventions
sums exactly to the principal (the PRICE annuity payment fully amortizes
the loan; in exact arithmetic there is no rounding error at all). -/
theorem C6_soma_amortizacao (P r : ℚ) (n : ℕ)
    (hP : 0 < P) (hr : 0 ≤ r) (hn : 1 ≤ n) :
    somaAmortizacao (calcular_tabela_price P r n) = P ∧
    somaAmortizacao (calcular_tabela_sac P r n) = P := by
  refine ⟨price_somaAmort hr hn P, ?_⟩
  have hnq : (0 : ℚ) < (n : ℚ) := by exact_mod_cast Nat.lt_of_lt_of_le Nat.zero_lt_one hn
  unfold calcular_tabela_sac
  rw [sacAux_somaAmort, mul_div_cancel₀ P hnq.ne']

theorem C6_soma_amortizacao_witness :
    somaAmortizacao (calcular_tabela_price 100 (1/100) 2) = 100 ∧
    somaAmortizacao (calcular_tabela_sac 100 (1/100) 2) = 100 :=
  C6_soma_amortizacao 100 (1/100) 2 (by norm_num) (by norm_num) (by norm_num)

/-- Claim C3 as stated is false on the code: for the valid input
`principal = 3/2000`, `taxa = 0`, `prazo = 2`, the SAC clamp stores a zero
balance after month 1 although `remaining_balance[0] - principal_paid[1] =
3/4000 ≠ 0`, so the exact balance recurrence fails. -/
theorem C3_contraexemplo :
    calcular_tabela_sac (3/2000) 0 2 =
      [{ mes := 1, parcela := 3/4000, juros := 0, amortizacao := 3/4000,
         saldo_devedor := 0 },
       { mes := 2, parcela := 3/4000, juros := 0, amortizacao := 3/4000,
         saldo_devedor := 0 }] ∧
    ¬ chainFrom (3/2000) (calcular_tabela_sac (3/2000) 0 2) := by
  have hl : calcular_tabela_sac (3/2000) 0 2 =
      [{ mes := 1, parcela := 3/4000, juros := 0, amortizacao := 3/4000,
         saldo_devedor := 0 },
       { mes := 2, parcela := 3/4000, juros := 0, amortizacao := 3/4000,
         saldo_devedor := 0 }] := by
    norm_num [calcular_tabela_sac, sacAux]
  refine ⟨hl, ?_⟩
  rw [hl]
  intro h
  have h1 : (0 : ℚ) = 3/2000 - 3/4000 := h.1
  norm_num at h1

/-- Claim C3, amended: for valid inputs every line of both conventions
satisfies `parcela = juros + amortizacao` exactly; the balance recurrence
`saldo[i] = saldo[i-1] - amortizacao[i]` (with `saldo[0] = principal`)
holds exactly for PRICE, while for SAC it holds except that the stored
balance is 0 whenever the difference falls below `1/1000`; and the stored
balance is non-increasing for both conventions. -/
theorem C3_invariantes (P r : ℚ) (n : ℕ) (hP : 0 < P) (hr : 0 ≤ r) (hn : 1 ≤ n) :
    (∀ linha ∈ calcular_tabela_price P r n,
      linha.parcela = linha.juros + linha.amortizacao) ∧
    (∀ linha ∈ calcular_tabela_sac P r n,
      linha.parcela = linha.juros + linha.amortizacao) ∧
    chainFrom P (calcular_tabela_price P r n) ∧
    chainClampFrom P (calcular_tabela_sac P r n) ∧
    nonIncFrom P (calcular_tabela_price P r n) ∧
    nonIncFrom P (calcular_tabela_sac P r n) := by
  refine ⟨fun linha h => (priceAux_mem _ r n n 1 P linha h).2,
    fun linha h => (sacAux_mem _ r n 1 P linha h).2,
    price_chainFrom hr hn P,
    sacAux_chainClamp _ r n 1 P,
    price_nonInc hr hP.le hn,
    sacAux_nonInc (div_nonneg hP.le (Nat.cast_nonneg n)) r n 1 P hP.le⟩

theorem C3_invariantes_witness :
    (∀ linha ∈ calcular_tabela_price 100 (1/100) 2,
      linha.parcela = linha.juros + linha.amortizacao) ∧
    (∀ linha ∈ calcular_tabela_sac 100 (1/100) 2,
      linha.parcela = linha.juros + linha.amortizacao) ∧
    chainFrom 100 (calcular_tabela_price 100 (1/100) 2) ∧
    chainClampFrom 100 (calcular_tabela_sac 100 (1/100) 2) ∧
    nonIncFrom 100 (calcular_tabela_price 100 (1/100) 2) ∧
    nonIncFrom 100 (calcular_tabela_sac 100 (1/100) 2) :=
  C3_invariantes 100 (1/100) 2 (by norm_num) (by norm_num) (by norm_num)

theorem avaliarTese_anti (func_calculo : ℚ → ℚ → ℕ → List TabelaLinha)
    {b c : ℚ} (P : ℚ) (hb : 0 ≤ b) (hc : 0 ≤ c) (n : ℕ)
    (hmono : ∀ r1 r2 : ℚ, 0 ≤ r1 → r1 ≤ r2 →
      somaJuros (func_calculo P r1 n) ≤ somaJuros (func_calculo P r2 n))
    {t1 t2 : ℚ} (ht1 : 0 ≤ t1) (ht : t1 ≤ t2) :
    avaliarTese func_calculo b P c n t2 ≤ avaliarTese func_calculo b P c n t1 := by
  unfold avaliarTese
  have hf1 : 0 ≤ min c (b * (1 + t1)) := le_min hc (mul_nonneg hb (by linarith))
  have hf12 : min c (b * (1 + t1)) ≤ min c (b * (1 + t2)) :=
    min_le_min (le_refl c) (mul_le_mul_of_nonneg_left (by linarith) hb)
  have hJ := hmono _ _ hf1 hf12
  exact max_le_max (le_refl 0) (by linarith)

theorem montarResultado_taxas (func_calculo : ℚ → ℚ → ℕ → List TabelaLinha)
    (b P c : ℚ) (n : ℕ) :
    (montarResultado func_calculo b P c n).tese_tolerancia_zero.taxa_recalculada =
      min c b ∧
    (montarResultado func_calculo b P c n).tese_tolerancia_50pc.taxa_recalculada =
      min c (b * (1 + TOLERANCIA_JUDICIAL)) ∧
    0 ≤ (montarResultado func_calculo b P c n).tese_tolerancia_zero.valor_abusivo_total ∧
    0 ≤ (montarResultado func_calculo b P c n).tese_tolerancia_50pc.valor_abusivo_total ∧
    (c ≤ b →
      (montarResultado func_calculo b P c n).tese_tolerancia_zero.valor_abusivo_total = 0) ∧
    (c ≤ b * (1 + TOLERANCIA_JUDICIAL) →
      (montarResultado func_calculo b P c n).tese_tolerancia_50pc.valor_abusivo_total = 0) := by
  refine ⟨rfl, rfl, le_max_left 0 _, le_max_left 0 _, ?_, ?_⟩
  · intro hcb
    show max 0 (somaJuros (func_calculo P c n) -
      somaJuros (func_calculo P (min c b) n)) = 0
    rw [min_eq_left hcb, sub_self, max_self]
  · intro hcb
    show max 0 (somaJuros (func_calculo P c n) -
      somaJuros (func_calculo P (min c (b * (1 + TOLERANCIA_JUDICIAL))) n)) = 0
    rw [min_eq_left hcb, sub_self, max_self]

theorem montarResultado_tese_mono (func_calculo : ℚ → ℚ → ℕ → List TabelaLinha)
    {b c : ℚ} (P : ℚ) (n : ℕ) (hb : 0 ≤ b) (hc : 0 ≤ c)
    (hmono : ∀ r1 r2 : ℚ, 0 ≤ r1 → r1 ≤ r2 →
      somaJuros (func_calculo P r1 n) ≤ somaJuros (func_calculo P r2 n)) :
    (montarResultado func_calculo b P c n).tese_tolerancia_50pc.valor_abusivo_total ≤
      (montarResultado func_calculo b P c n).tese_tolerancia_zero.valor_abusivo_total := by
  show max 0 (somaJuros (func_calculo P c n) -
      somaJuros (func_calculo P (min c (b * (1 + TOLERANCIA_JUDICIAL))) n)) ≤
    max 0 (somaJuros (func_calculo P c n) - somaJuros (func_calculo P (min c b) n))
  have h1 : 0 ≤ min c b := le_min hc hb
  have h2 : min c b ≤ min c (b * (1 + TOLERANCIA_JUDICIAL)) := by
    refine min_le_min (le_refl c) ?_
    rw [TOLERANCIA_JUDICIAL]
    nlinarith
  have hJ := hmono _ _ h1 h2
  exact max_le_max (le_refl 0) (by linarith)

theorem montarResultado_taxa_zero (func_calculo : ℚ → ℚ → ℕ → List TabelaLinha)
    {c : ℚ} (P : ℚ) (n : ℕ) (hc : 0 < c)
    (hjz : somaJuros (func_calculo P 0 n) = 0)
    (hjnn : 0 ≤ somaJuros (func_calculo P c n)) :
    (montarResultado func_calculo 0 P c n).tese_tolerancia_zero.taxa_recalculada = 0 ∧
    (montarResultado func_calculo 0 P c n).tese_tolerancia_zero.juros_total_recalculado = 0 ∧
    (montarResultado func_calculo 0 P c n).tese_tolerancia_zero.valor_abusivo_total =
      (montarResultado func_calculo 0 P c n).juros_total_original := by
  have hmin : min c (0 : ℚ) = 0 := min_eq_right hc.le
  refine ⟨hmin, ?_, ?_⟩
  · show somaJuros (func_calculo P (min c 0) n) = 0
    rw [hmin]
    exact hjz
  · show max 0 (somaJuros (func_calculo P c n) -
      somaJuros (func_calculo P (min c 0) n)) = somaJuros (func_calculo P c n)
    rw [hmin, hjz, sub_zero, max_eq_right hjnn]

/-- Claim C1 is right about the intended design but wrong about the code:
at a failing lookup (here: unknown modality, the uniform `0.0` return of
`buscar_taxa_media_bacen`), `calcular_abusividade` does not raise any
"reference rate unavailable" condition — it returns a full report built
with `taxa_bacen = 0`, whose zero-tolerance fair rate is `min(0.025, 0) = 0`.
The inputs are those of the module test of `calculadora_financeira.py`
(lines 168-175). -/
theorem C1_laudo_apesar_de_taxa_indisponivel :
    ∃ resultado,
      calcular_abusividade BacenResultado.modalidadeDesconhecida 50000 (1/40) 36 "PRICE" =
        Except.ok resultado ∧
      resultado.taxa_bacen = 0 ∧
      resultado.tese_tolerancia_zero.taxa_recalculada = 0 := by
  refine ⟨_, rfl, rfl, ?_⟩
  show min (1/40 : ℚ) (buscar_taxa_media_bacen BacenResultado.modalidadeDesconhecida) = 0
  rw [show buscar_taxa_media_bacen BacenResultado.modalidadeDesconhecida = 0 from rfl]
  exact min_eq_right (by norm_num)

/-- Claim C2 as stated is false on the code: a negative principal is not
rejected — `calcular_abusividade` returns a full report and a complete
2-line schedule is computed for `principal = -50`. -/
theorem C2_contraexemplo :
    ∃ resultado,
      calcular_abusividade (BacenResultado.sucesso (1/100)) (-50) (1/100) 2 "PRICE" =
        Except.ok resultado ∧
      resultado.tabela_original.length = 2 := by
  refine ⟨_, rfl, ?_⟩
  exact priceAux_length _ _ _ _ _ _

/-- Claim C2, amended: the only input validation performed before schedule
computation is the amortization-system dispatch — a string other than
PRICE / SAC (case-insensitively) raises `ValueError` — while for any term
`≥ 1` a non-positive principal or a negative rate is silently accepted and
a schedule is computed for it.  (A term of 0 is also never rejected by a
domain validation check, but there SAC fails with an unhandled
`ZeroDivisionError`, outside this embedding's domain, so the theorem is
restricted to `1 ≤ n`.) -/
theorem C2_validacao (res : BacenResultado) (P c : ℚ) (n : ℕ) (sistema : String)
    (hn : 1 ≤ n) :
    ((upper sistema ≠ "PRICE" ∧ upper sistema ≠ "SAC") →
      calcular_abusividade res P c n sistema =
        Except.error "Sistema de Amortizacao invalido. Escolha PRICE ou SAC.") ∧
    ((upper sistema = "PRICE" ∨ upper sistema = "SAC") →
      ∃ resultado, calcular_abusividade res P c n sistema = Except.ok resultado) := by
  constructor
  · rintro ⟨h1, h2⟩
    unfold calcular_abusividade
    rw [if_neg h1, if_neg h2]
  · rintro (h | h)
    · unfold calcular_abusividade
      rw [if_pos h]
      exact ⟨_, rfl⟩
    · unfold calcular_abusividade
      by_cases h1 : upper sistema = "PRICE"
      · rw [if_pos h1]
        exact ⟨_, rfl⟩
      · rw [if_neg h1, if_pos h]
        exact ⟨_, rfl⟩

theorem C2_validacao_witness :
    calcular_abusividade (BacenResultado.sucesso 0) 1 0 1 "FOO" =
      Except.error "Sistema de Amortizacao invalido. Escolha PRICE ou SAC." ∧
    (∃ resultado, calcular_abusividade (BacenResultado.sucesso 0) (-1) 0 1 "price" =
      Except.ok resultado) :=
  ⟨(C2_validacao (BacenResultado.sucesso 0) 1 0 1 "FOO" (by norm_num)).1
      ⟨by decide, by decide⟩,
    (C2_validacao (BacenResultado.sucesso 0) (-1) 0 1 "price" (by norm_num)).2
      (Or.inl (by decide))⟩

/-- Claim C7: in every report of `calcular_abusividade`, each thesis's
applied fair rate is `min(taxa_contratada, taxa_bacen * (1 + t))` for its
tolerance `t` (0 resp. 0.5), so the contract rate is never revised upward;
the abusive amount is always nonnegative; and it is 0 whenever the
contracted rate is at most the thesis limit. -/
theorem C7_taxa_justa_e_abusivo (res : BacenResultado) (P c : ℚ) (n : ℕ)
    (sistema : String) (resultado : ResultadoAbusividade)
    (h : calcular_abusividade res P c n sistema = Except.ok resultado) :
    resultado.tese_tolerancia_zero.taxa_recalculada =
      min c (buscar_taxa_media_bacen res) ∧
    resultado.tese_tolerancia_50pc.taxa_recalculada =
      min c (buscar_taxa_media_bacen res * (1 + TOLERANCIA_JUDICIAL)) ∧
    0 ≤ resultado.tese_tolerancia_zero.valor_abusivo_total ∧
    0 ≤ resultado.tese_tolerancia_50pc.valor_abusivo_total ∧
    (c ≤ buscar_taxa_media_bacen res →
      resultado.tese_tolerancia_zero.valor_abusivo_total = 0) ∧
    (c ≤ buscar_taxa_media_bacen res * (1 + TOLERANCIA_JUDICIAL) →
      resultado.tese_tolerancia_50pc.valor_abusivo_total = 0) := by
  unfold calcular_abusividade at h
  split_ifs at h with h1 h2
  · injection h with h
    subst h
    exact montarResultado_taxas calcular_tabela_price _ P c n
  · injection h with h
    subst h
    exact montarResultado_taxas calcular_tabela_sac _ P c n

theorem C7_taxa_justa_e_abusivo_witness :
    (montarResultado calcular_tabela_price
        (buscar_taxa_media_bacen (BacenResultado.sucesso (1/50))) 1000 (1/40)
        2).tese_tolerancia_zero.taxa_recalculada =
      min (1/40) (buscar_taxa_media_bacen (BacenResultado.sucesso (1/50))) ∧
    (montarResultado calcular_tabela_price
        (buscar_taxa_media_bacen (BacenResultado.sucesso (1/50))) 1000 (1/40)
        2).tese_tolerancia_50pc.taxa_recalculada =
      min (1/40) (buscar_taxa_media_bacen (BacenResultado.sucesso (1/50)) *
        (1 + TOLERANCIA_JUDICIAL)) ∧
    0 ≤ (montarResultado calcular_tabela_price
        (buscar_taxa_media_bacen (BacenResultado.sucesso (1/50))) 1000 (1/40)
        2).tese_tolerancia_zero.valor_abusivo_total ∧
    0 ≤ (montarResultado calcular_tabela_price
        (buscar_taxa_media_bacen (BacenResultado.sucesso (1/50))) 1000 (1/40)
        2).tese_tolerancia_50pc.valor_abusivo_total ∧
    ((1/40 : ℚ) ≤ buscar_taxa_media_bacen (BacenResultado.sucesso (1/50)) →
      (montarResultado calcular_tabela_price
        (buscar_taxa_media_bacen (BacenResultado.sucesso (1/50))) 1000 (1/40)
        2).tese_tolerancia_zero.valor_abusivo_total = 0) ∧
    ((1/40 : ℚ) ≤ buscar_taxa_media_bacen (BacenResultado.sucesso (1/50)) *
        (1 + TOLERANCIA_JUDICIAL) →
      (montarResultado calcular_tabela_price
        (buscar_taxa_media_bacen (BacenResultado.sucesso (1/50))) 1000 (1/40)
        2).tese_tolerancia_50pc.valor_abusivo_total = 0) :=
  C7_taxa_justa_e_abusivo (BacenResultado.sucesso (1/50)) 1000 (1/40) 2 "PRICE" _ rfl

/-- Claim C8: for a fixed contract and a positive reference rate, the
abusive amount of the 50%-tolerance thesis never exceeds that of the
zero-tolerance thesis, and more generally (for the custom-tolerance
computation of `main_app.py`) a larger tolerance never yields a larger
abusive amount, because total schedule interest is monotone in the rate. -/
theorem C8_monotonicidade_tolerancia (res : BacenResultado) (P c : ℚ) (n : ℕ)
    (sistema : String) (hP : 0 < P) (hc : 0 ≤ c) (hn : 1 ≤ n)
    (hb : 0 < buscar_taxa_media_bacen res)
    (hs : upper sistema = "PRICE" ∨ upper sistema = "SAC") :
    ∃ resultado, calcular_abusividade res P c n sistema = Except.ok resultado ∧
      resultado.tese_tolerancia_50pc.valor_abusivo_total ≤
        resultado.tese_tolerancia_zero.valor_abusivo_total ∧
      (∀ t1 t2 : ℚ, 0 ≤ t1 → t1 ≤ t2 →
        avaliarTese calcular_tabela_price (buscar_taxa_media_bacen res) P c n t2 ≤
          avaliarTese calcular_tabela_price (buscar_taxa_media_bacen res) P c n t1) ∧
      (∀ t1 t2 : ℚ, 0 ≤ t1 → t1 ≤ t2 →
        avaliarTese calcular_tabela_sac (buscar_taxa_media_bacen res) P c n t2 ≤
          avaliarTese calcular_tabela_sac (buscar_taxa_media_bacen res) P c n t1) := by
  have hbq : 0 ≤ buscar_taxa_media_bacen res := hb.le
  have hpm : ∀ r1 r2 : ℚ, 0 ≤ r1 → r1 ≤ r2 →
      somaJuros (calcular_tabela_price P r1 n) ≤ somaJuros (calcular_tabela_price P r2 n) :=
    fun r1 r2 h1 h12 => price_somaJuros_mono h1 h12 hP.le hn
  have hsm : ∀ r1 r2 : ℚ, 0 ≤ r1 → r1 ≤ r2 →
      somaJuros (calcular_tabela_sac P r1 n) ≤ somaJuros (calcular_tabela_sac P r2 n) :=
    fun r1 r2 h1 h12 => sac_somaJuros_mono h1 h12 hP.le n
  rcases hs with h | h
  · refine ⟨montarResultado calcular_tabela_price (buscar_taxa_media_bacen res) P c n,
      ?_, ?_, ?_, ?_⟩
    · unfold calcular_abusividade
      rw [if_pos h]
    · exact montarResultado_tese_mono calcular_tabela_price P n hbq hc hpm
    · intro t1 t2 ht1 ht
      exact avaliarTese_anti calcular_tabela_price P hbq hc n hpm ht1 ht
    · intro t1 t2 ht1 ht
      exact avaliarTese_anti calcular_tabela_sac P hbq hc n hsm ht1 ht
  · have h1 : upper sistema ≠ "PRICE" := by
      rw [h]
      decide
    refine ⟨montarResultado calcular_tabela_sac (buscar_taxa_media_bacen res) P c n,
      ?_, ?_, ?_, ?_⟩
    · unfold calcular_abusividade
      rw [if_neg h1, if_pos h]
    · exact montarResultado_tese_mono calcular_tabela_sac P n hbq hc hsm
    · intro t1 t2 ht1 ht
      exact avaliarTese_anti calcular_tabela_price P hbq hc n hpm ht1 ht
    · intro t1 t2 ht1 ht
      exact avaliarTese_anti calcular_tabela_sac P hbq hc n hsm ht1 ht

theorem C8_monotonicidade_tolerancia_witness :
    ∃ resultado,
      calcular_abusividade (BacenResultado.sucesso (1/50)) 1000 (1/40) 1 "PRICE" =
        Except.ok resultado ∧
      resultado.tese_tolerancia_50pc.valor_abusivo_total ≤
        resultado.tese_tolerancia_zero.valor_abusivo_total ∧
      avaliarTese calcular_tabela_price
          (buscar_taxa_media_bacen (BacenResultado.sucesso (1/50))) 1000 (1/40) 1 (1/2) ≤
        avaliarTese calcular_tabela_price
          (buscar_taxa_media_bacen (BacenResultado.sucesso (1/50))) 1000 (1/40) 1 0 ∧
      avaliarTese calcular_tabela_sac
          (buscar_taxa_media_bacen (BacenResultado.sucesso (1/50))) 1000 (1/40) 1 (1/2) ≤
        avaliarTese calcular_tabela_sac
          (buscar_taxa_media_bacen (BacenResultado.sucesso (1/50))) 1000 (1/40) 1 0 := by
  obtain ⟨resultado, h, h1, h2, h3⟩ :=
    C8_monotonicidade_tolerancia (BacenResultado.sucesso (1/50)) 1000 (1/40) 1 "PRICE"
      (by norm_num) (by norm_num) (by norm_num)
      (by rw [show buscar_taxa_media_bacen (BacenResultado.sucesso (1/50)) = 1/50 from rfl]
          norm_num)
      (Or.inl (by decide))
  exact ⟨resultado, h, h1, h2 0 (1/2) le_rfl (by norm_num), h3 0 (1/2) le_rfl (by norm_num)⟩

/-- Claim C10: when the rate lookup returns its uniform failure value 0 and
the contracted rate is positive, `calcular_abusividade` still returns a
full report whose zero-tolerance thesis has fair rate `min(c, 0) = 0`,
recalculated total interest 0, and abusive amount equal to the whole
original total interest — not any "cannot evaluate" signal. -/
theorem C10_abusivo_total_com_taxa_zero (res : BacenResultado) (P c : ℚ) (n : ℕ)
    (sistema : String) (h0 : buscar_taxa_media_bacen res = 0) (hP : 0 < P)
    (hc : 0 < c) (hn : 1 ≤ n)
    (hs : upper sistema = "PRICE" ∨ upper sistema = "SAC") :
    ∃ resultado, calcular_abusividade res P c n sistema = Except.ok resultado ∧
      resultado.tese_tolerancia_zero.taxa_recalculada = 0 ∧
      resultado.tese_tolerancia_zero.juros_total_recalculado = 0 ∧
      resultado.tese_tolerancia_zero.valor_abusivo_total =
        resultado.juros_total_original := by
  rcases hs with h | h
  · have hfacts := montarResultado_taxa_zero calcular_tabela_price P n hc
      (somaJuros_eq_zero (price_juros_zero P n)) (price_somaJuros_nonneg hc.le hP.le hn)
    refine ⟨montarResultado calcular_tabela_price (buscar_taxa_media_bacen res) P c n,
      ?_, ?_, ?_, ?_⟩
    · unfold calcular_abusividade
      rw [if_pos h]
    · rw [h0]
      exact hfacts.1
    · rw [h0]
      exact hfacts.2.1
    · rw [h0]
      exact hfacts.2.2
  · have h1 : upper sistema ≠ "PRICE" := by
      rw [h]
      decide
    have hfacts := montarResultado_taxa_zero calcular_tabela_sac P n hc
      (somaJuros_eq_zero (sac_juros_zero P n)) (sac_somaJuros_nonneg hc.le hP.le n)
    refine ⟨montarResultado calcular_tabela_sac (buscar_taxa_media_bacen res) P c n,
      ?_, ?_, ?_, ?_⟩
    · unfold calcular_abusividade
      rw [if_neg h1, if_pos h]
    · rw [h0]
      exact hfacts.1
    · rw [h0]
      exact hfacts.2.1
    · rw [h0]
      exact hfacts.2.2

theorem C10_abusivo_total_com_taxa_zero_witness :
    ∃ resultado,
      calcular_abusividade BacenResultado.falhaRede 1000 (1/40) 2 "SAC" =
        Except.ok resultado ∧
      resultado.tese_tolerancia_zero.taxa_recalculada = 0 ∧
      resultado.tese_tolerancia_zero.juros_total_recalculado = 0 ∧
      resultado.tese_tolerancia_zero.valor_abusivo_total =
        resultado.juros_total_original :=
  C10_abusivo_total_com_taxa_zero BacenResultado.falhaRede 1000 (1/40) 2 "SAC" rfl
    (by norm_num) (by norm_num) (by norm_num) (Or.inr (by decide))
